import Mathlib

/-!
Verification development for the prompt-extraction core of the
Prompt-Classifier repository (src/image_utils.py), as a shallow embedding
in Lean 4.  Python strings of '0'/'1' bits are embedded as `List Bool`,
Python byte strings as `List Nat`, Python heterogeneous values as `PyVal`,
and Python exceptions as `Option`/`Except`.  Each definition is translated
from the named source function.
-/

/-! ## Python string helpers -/

/-- Whitespace characters stripped by Python `str.strip()` (ASCII part plus
the common Unicode line/space separators; `str.strip()` strips any
`str.isspace()` character, of which these are the ones reachable here). -/
def pyIsSpace (c : Char) : Bool :=
  c = ' ' || c = '\t' || c = '\n' || c = '\r' ||
  c = Char.ofNat 11 || c = Char.ofNat 12 ||
  c = Char.ofNat 0x1c || c = Char.ofNat 0x1d || c = Char.ofNat 0x1e ||
  c = Char.ofNat 0x1f || c = Char.ofNat 0x85 || c = Char.ofNat 0xa0 ||
  c = Char.ofNat 0x2028 || c = Char.ofNat 0x2029

/-- Python `str.strip()`. -/
def pyStrip (s : String) : String :=
  String.mk (((s.data.dropWhile pyIsSpace).reverse.dropWhile pyIsSpace).reverse)

/-- Python `str.lower()` on one character (ASCII range; the keys handled by
the source are ASCII). -/
def pyLowerChar (c : Char) : Char :=
  if c.toNat ≥ 65 ∧ c.toNat ≤ 90 then Char.ofNat (c.toNat + 32) else c

/-- Python `str.lower()`. -/
def pyLower (s : String) : String := String.mk (s.data.map pyLowerChar)

/-- Python substring membership `needle in hay` (on `List Char`). -/
def listContainsSeq (needle : List Char) : List Char → Bool
  | [] => needle.isEmpty
  | c :: rest => needle.isPrefixOf (c :: rest) || listContainsSeq needle rest

/-- Python substring membership `needle in hay`. -/
def strContains (hay needle : String) : Bool := listContainsSeq needle.data hay.data

/-- Python `str.startswith(pre)`. -/
def pyStartsWith (s pre : String) : Bool := pre.data.isPrefixOf s.data

/-- Python `str.endswith(suf)`. -/
def pyEndsWith (s suf : String) : Bool := suf.data.reverse.isPrefixOf s.data.reverse

/-- Python slicing `s[n:]`. -/
def pyDropChars (n : Nat) (s : String) : String := String.mk (s.data.drop n)

/-- Line-break characters recognised by Python `str.splitlines()`
(other than the combined `\r\n`). -/
def pyIsLineBreak (c : Char) : Bool :=
  c = '\n' || c = '\r' || c = Char.ofNat 11 || c = Char.ofNat 12 ||
  c = Char.ofNat 0x1c || c = Char.ofNat 0x1d || c = Char.ofNat 0x1e ||
  c = Char.ofNat 0x85 || c = Char.ofNat 0x2028 || c = Char.ofNat 0x2029

/-- Python `str.splitlines()`: worker over the character list; `acc` holds
the current line reversed.  A trailing line terminator produces no final
empty line, matching Python. -/
def pySplitlinesGo : List Char → List Char → List String
  | [], acc => if acc.isEmpty then [] else [String.mk acc.reverse]
  | '\r' :: '\n' :: rest, acc => String.mk acc.reverse :: pySplitlinesGo rest []
  | c :: rest, acc =>
    if pyIsLineBreak c then String.mk acc.reverse :: pySplitlinesGo rest []
    else pySplitlinesGo rest (c :: acc)

/-- Python `str.splitlines()`. -/
def pySplitlines (s : String) : List String := pySplitlinesGo s.data []

/-- Python `str.split(sep)` for a one-character separator (keeps empty
segments, like Python `split` with an explicit separator). -/
def pySplitCharGo (sep : Char) : List Char → List Char → List String
  | [], acc => [String.mk acc.reverse]
  | c :: rest, acc =>
    if c = sep then String.mk acc.reverse :: pySplitCharGo sep rest []
    else pySplitCharGo sep rest (c :: acc)

/-- Python `str.split(sep)` with a one-character separator. -/
def pySplitChar (sep : Char) (s : String) : List String := pySplitCharGo sep s.data []

/-- Python `str.split(sep, 1)` with a one-character separator: split on the
first occurrence only.  Returns the two halves; if the separator is absent
the second half is `none` (callers here only invoke it after a membership
test, so that case is unreached). -/
def pySplitFirst (sep : Char) (s : String) : String × String :=
  let rec go : List Char → List Char → String × String
    | [], acc => (String.mk acc.reverse, "")
    | c :: rest, acc =>
      if c = sep then (String.mk acc.reverse, String.mk rest)
      else go rest (c :: acc)
  go s.data []

/-- Python `"\n".join(xs)`. -/
def joinNL (xs : List String) : String := String.mk (List.intercalate ['\n'] (xs.map String.data))

/-! ## Bits and bytes -/

/-- Python `int(bitstring, 2)`: big-endian binary value of a bit list.
(Python raises on the empty string; every call site here passes a
non-empty buffer.) -/
def bitsToNat (bs : List Bool) : Nat := bs.foldl (fun a b => 2 * a + cond b 1 0) 0

/-- Big-endian `w`-bit representation of `n` (used to build test images). -/
def natToBitsBE (w n : Nat) : List Bool := (List.range w).map (fun i => n.testBit (w - 1 - i))

/-- The UTF-8 bytes of an ASCII string as a bit stream, 8 bits per
character, big-endian (used to build test images). -/
def strToBits (s : String) : List Bool := s.data.flatMap (fun c => natToBitsBE 8 c.toNat)

/-- Split a bit list into 8-bit groups; the final group may be shorter,
like the `range(0, len, 8)` slicing loop in `_decode_bytes` /
`_decode_binary_data`. -/
def chunkBytesGo : Nat → List Bool → List (List Bool)
  | 0, _ => []
  | _, [] => []
  | fuel + 1, bs => bs.take 8 :: chunkBytesGo fuel (bs.drop 8)

/-- Split a bit list into 8-bit groups (final group may be shorter). -/
def chunkBytes (bs : List Bool) : List (List Bool) := chunkBytesGo bs.length bs

/-- Is a byte a UTF-8 continuation byte (`0x80..0xBF`)? -/
def isUtf8Cont (b : Nat) : Bool := 0x80 ≤ b ∧ b ≤ 0xBF

/-- UTF-8 decoding with Python's `errors='ignore'` policy: maximal valid
sequences decode to their code point; on an invalid sequence the bytes
consumed so far (at least one) are skipped.  `fuel` bounds recursion;
every step consumes at least one byte so `fuel = length` suffices. -/
def utf8IgnoreGo : Nat → List Nat → List Char
  | 0, _ => []
  | _, [] => []
  | fuel + 1, b :: rest =>
    if b < 0x80 then Char.ofNat b :: utf8IgnoreGo fuel rest
    else if 0xC2 ≤ b ∧ b ≤ 0xDF then
      match rest with
      | c1 :: rest2 =>
        if isUtf8Cont c1 then
          Char.ofNat ((b - 0xC0) * 64 + (c1 - 0x80)) :: utf8IgnoreGo fuel rest2
        else utf8IgnoreGo fuel rest
      | [] => []
    else if 0xE0 ≤ b ∧ b ≤ 0xEF then
      match rest with
      | c1 :: rest2 =>
        let lo1 : Nat := if b = 0xE0 then 0xA0 else 0x80
        let hi1 : Nat := if b = 0xED then 0x9F else 0xBF
        if lo1 ≤ c1 ∧ c1 ≤ hi1 then
          match rest2 with
          | c2 :: rest3 =>
            if isUtf8Cont c2 then
              Char.ofNat ((b - 0xE0) * 4096 + (c1 - 0x80) * 64 + (c2 - 0x80)) ::
                utf8IgnoreGo fuel rest3
            else utf8IgnoreGo fuel rest2
          | [] => []
        else utf8IgnoreGo fuel rest
      | [] => []
    else if 0xF0 ≤ b ∧ b ≤ 0xF4 then
      match rest with
      | c1 :: rest2 =>
        let lo1 : Nat := if b = 0xF0 then 0x90 else 0x80
        let hi1 : Nat := if b = 0xF4 then 0x8F else 0xBF
        if lo1 ≤ c1 ∧ c1 ≤ hi1 then
          match rest2 with
          | c2 :: rest3 =>
            if isUtf8Cont c2 then
              match rest3 with
              | c3 :: rest4 =>
                if isUtf8Cont c3 then
                  Char.ofNat ((b - 0xF0) * 262144 + (c1 - 0x80) * 4096 +
                      (c2 - 0x80) * 64 + (c3 - 0x80)) :: utf8IgnoreGo fuel rest4
                else utf8IgnoreGo fuel rest3
              | [] => []
            else utf8IgnoreGo fuel rest2
          | [] => []
        else utf8IgnoreGo fuel rest
      | [] => []
    else utf8IgnoreGo fuel rest

/-- `bytes.decode('utf-8', errors='ignore')`. -/
def utf8DecodeIgnore (bs : List Nat) : String := String.mk (utf8IgnoreGo bs.length bs)

/-- `_decode_bytes` (src/image_utils.py lines 502-508): group the bit
string into bytes and decode as UTF-8 ignoring invalid bytes.  The
`try/except` cannot fire for bit-list input, so the function is total. -/
def _decode_bytes (binary_str : List Bool) : String :=
  utf8DecodeIgnore ((chunkBytes binary_str).map bitsToNat)

/-! ## Image model

The slice of a PIL image that `image_utils.py` consumes: pixel access,
mode (RGBA or not), declared format, the textual entries of `img.info`,
and the EXIF blob abstracted to whether `piexif` can load it and what
`piexif.helper.UserComment.load` yields for its UserComment field. -/

structure PILImage where
  width : Nat
  height : Nat
  /-- `image.mode == 'RGBA'` -/
  hasAlpha : Bool
  /-- `pixels[x, y]` as `(r, g, b, a)`; the alpha component is read only
  when `hasAlpha` (Python unpacks a 3-tuple otherwise). -/
  px : Nat → Nat → Nat × Nat × Nat × Nat
  /-- `image.format` -/
  format : Option String
  /-- the string-valued entries of `img.info` in insertion order -/
  textInfo : List (String × String)
  /-- whether `img.info` carries an `exif` byte blob that `piexif.load`
  accepts -/
  exifPresent : Bool
  /-- the decoded `UserComment` field of that blob, when present -/
  exifUserComment : Option String

/-- The pixel coordinates in the scan order of
`read_info_from_image_stealth`: `for x in range(width): for y in range(height)`. -/
def pixelList (img : PILImage) : List (Nat × Nat) :=
  (List.range img.width).flatMap (fun x => (List.range img.height).map (fun y => (x, y)))

/-! ## Stealth-pnginfo reader (src/image_utils.py lines 364-521) -/

/-- The per-scan mutable state of `read_info_from_image_stealth`
(lines 373-388). -/
structure SState where
  mode : Option String
  compressed : Bool
  binary_data : List Bool
  buffer_a : List Bool
  buffer_rgb : List Bool
  index_a : Nat
  index_rgb : Nat
  sig_confirmed : Bool
  confirming_signature : Bool
  reading_param_len : Bool
  reading_param : Bool
  read_end : Bool
  param_len : Nat
deriving DecidableEq

/-- The initial state (lines 373-388). -/
def initSState : SState :=
  ⟨none, false, [], [], [], 0, 0, false, true, false, false, false, 0⟩

/-- `_check_signature` (lines 433-439). -/
def _check_signature (buffer_a buffer_rgb : List Bool) (index_a index_rgb : Nat)
    (has_alpha : Bool) : Bool :=
  if has_alpha ∧ index_a = "stealth_pnginfo".length * 8 then true
  else if index_rgb = "stealth_pnginfo".length * 8 then true
  else false

/-- The tuple returned by `_process_signature`. -/
structure SigResult where
  sig_confirmed : Bool
  confirming_signature : Bool
  reading_param_len : Bool
  mode : Option String
  compressed : Bool
  buffer_a : List Bool
  buffer_rgb : List Bool
  index_a : Nat
  index_rgb : Nat
deriving DecidableEq

/-- `_process_signature` (lines 442-469). -/
def _process_signature (buffer_a buffer_rgb : List Bool) (index_a index_rgb : Nat)
    (has_alpha : Bool) : SigResult :=
  if has_alpha then
    let decoded_sig := _decode_bytes buffer_a
    if decoded_sig = "stealth_pnginfo" ∨ decoded_sig = "stealth_pngcomp" then
      ⟨true, false, true, some "alpha", decide (decoded_sig = "stealth_pngcomp"),
        [], buffer_rgb, 0, index_rgb⟩
    else ⟨false, false, false, none, false, buffer_a, buffer_rgb, index_a, index_rgb⟩
  else
    let decoded_sig := _decode_bytes buffer_rgb
    if decoded_sig = "stealth_rgbinfo" ∨ decoded_sig = "stealth_rgbcomp" then
      ⟨true, false, true, some "rgb", decide (decoded_sig = "stealth_rgbcomp"),
        buffer_a, [], index_a, 0⟩
    else ⟨false, false, false, none, false, buffer_a, buffer_rgb, index_a, index_rgb⟩

/-- `_is_param_len_ready` (lines 472-474). -/
def _is_param_len_ready (mode : Option String) (index_a index_rgb : Nat) : Bool :=
  (mode = some "alpha" ∧ index_a = 32) ∨ (mode = some "rgb" ∧ index_rgb = 33)

/-- The tuple returned by `_process_param_len`. -/
structure ParamLenResult where
  reading_param_len : Bool
  reading_param : Bool
  param_len : Nat
  buffer_a : List Bool
  buffer_rgb : List Bool
  index_a : Nat
  index_rgb : Nat
deriving DecidableEq

/-- `_process_param_len` (lines 477-494).  In the non-alpha branch Python
pops `buffer_rgb[-1]` (the last accumulated bit), parses the remaining 32
bits as the length and re-seeds the buffer with the popped bit.
(`buffer_rgb[-1]` would raise IndexError on an empty buffer; the only call
site passes a 33-bit buffer, so `getLastD` is exact there.) -/
def _process_param_len (mode : Option String) (buffer_a buffer_rgb : List Bool)
    (index_a index_rgb : Nat) : ParamLenResult :=
  if mode = some "alpha" then
    ⟨false, true, bitsToNat buffer_a, [], buffer_rgb, 0, index_rgb⟩
  else
    let pop := buffer_rgb.getLastD false
    ⟨false, true, bitsToNat buffer_rgb.dropLast, buffer_a, [pop], index_a, 1⟩

/-- `_is_param_ready` (lines 497-499). -/
def _is_param_ready (mode : Option String) (index_a index_rgb param_len : Nat) : Bool :=
  (mode = some "alpha" ∧ index_a = param_len) ∨ (mode = some "rgb" ∧ index_rgb ≥ param_len)

/-- One iteration of the inner pixel loop of `read_info_from_image_stealth`
(lines 393-421): append the LSBs of the current pixel to the buffers, then
dispatch on the state flags. -/
def stealthStep (has_alpha : Bool) (pixel : Nat × Nat × Nat × Nat) (s : SState) : SState :=
  let (r, g, b, a) := pixel
  let s :=
    if has_alpha then
      { s with buffer_a := s.buffer_a ++ [a % 2 == 1], index_a := s.index_a + 1 }
    else s
  let s :=
    { s with buffer_rgb := s.buffer_rgb ++ [r % 2 == 1, g % 2 == 1, b % 2 == 1],
             index_rgb := s.index_rgb + 3 }
  if s.confirming_signature then
    if _check_signature s.buffer_a s.buffer_rgb s.index_a s.index_rgb has_alpha then
      let t := _process_signature s.buffer_a s.buffer_rgb s.index_a s.index_rgb has_alpha
      { s with sig_confirmed := t.sig_confirmed,
               confirming_signature := t.confirming_signature,
               reading_param_len := t.reading_param_len,
               mode := t.mode, compressed := t.compressed,
               buffer_a := t.buffer_a, buffer_rgb := t.buffer_rgb,
               index_a := t.index_a, index_rgb := t.index_rgb }
    else s
  else if s.reading_param_len then
    if _is_param_len_ready s.mode s.index_a s.index_rgb then
      let t := _process_param_len s.mode s.buffer_a s.buffer_rgb s.index_a s.index_rgb
      { s with reading_param_len := t.reading_param_len,
               reading_param := t.reading_param, param_len := t.param_len,
               buffer_a := t.buffer_a, buffer_rgb := t.buffer_rgb,
               index_a := t.index_a, index_rgb := t.index_rgb }
    else s
  else if s.reading_param then
    if _is_param_ready s.mode s.index_a s.index_rgb s.param_len then
      { s with binary_data := if s.mode = some "alpha" then s.buffer_a else s.buffer_rgb,
               read_end := true }
    else s
  else
    -- the "impossible state" arm (lines 418-421)
    { s with read_end := true }

/-- The double pixel loop with its `break` on `read_end` (lines 391-424). -/
def stealthScanGo (img : PILImage) : List (Nat × Nat) → SState → SState
  | [], s => s
  | xy :: rest, s =>
    if s.read_end then s
    else stealthScanGo img rest (stealthStep img.hasAlpha (img.px xy.1 xy.2) s)

/-- The final scan state of `read_info_from_image_stealth` for an image. -/
def stealthScan (img : PILImage) : SState := stealthScanGo img (pixelList img) initSState

/-- External `gzip.decompress` followed by strict UTF-8 decoding (stdlib,
not part of this repository).  No claim in scope evaluates a compressed
payload; the model treats every compressed stream as a decode failure,
which is the behaviour the spec assigns to bad streams. -/
def gzipDecompressModel (_bytes : List Nat) : Option String := none

/-- `_decode_binary_data` (lines 511-521): group bits into bytes; gzip
path on `compressed`, lenient UTF-8 otherwise (total; the `except` arm is
reachable only through gzip, folded into `gzipDecompressModel`). -/
def _decode_binary_data (binary_data : List Bool) (compressed : Bool) : Option String :=
  let byte_data := (chunkBytes binary_data).map bitsToNat
  if compressed then gzipDecompressModel byte_data
  else some (utf8DecodeIgnore byte_data)

/-- `read_info_from_image_stealth` (lines 364-430). -/
def read_info_from_image_stealth (image : PILImage) : Option String :=
  let s := stealthScan image
  -- `if sig_confirmed and binary_data:` (line 427)
  if s.sig_confirmed ∧ s.binary_data ≠ [] then
    _decode_binary_data s.binary_data s.compressed
  else none

/-! ## Python values and `json.loads` / `json.dumps`

`image_utils.py` moves parsed JSON and coerced option values around as
ordinary Python objects; `PyVal` models the value universe reachable
there.  A float is kept as its source lexeme: no claim in scope compares
floats across different spellings, so IEEE semantics are not needed. -/

inductive PyVal where
  | pynone : PyVal
  | pybool : Bool → PyVal
  | pyint : Int → PyVal
  | pyfloat : String → PyVal
  | pystr : String → PyVal
  | pylist : List PyVal → PyVal
  | pydict : List (String × PyVal) → PyVal

/-- Python `is None`. -/
def pyIsNone : PyVal → Bool
  | .pynone => true
  | _ => false

/-- Digits of a float lexeme are all zero (ignoring sign, dot and a
possible exponent part), i.e. Python truth-value of the float is False. -/
def floatLexIsZero (lx : String) : Bool :=
  (lx.data.takeWhile (fun c => ¬(c = 'e' ∨ c = 'E'))).all
    (fun c => c = '0' ∨ c = '.' ∨ c = '-' ∨ c = '+')

/-- Python truthiness of a value. -/
def pyTruthy : PyVal → Bool
  | .pynone => false
  | .pybool b => b
  | .pyint n => n ≠ 0
  | .pyfloat lx => ¬ floatLexIsZero lx
  | .pystr s => s ≠ ""
  | .pylist xs => ¬ xs.isEmpty
  | .pydict kvs => ¬ kvs.isEmpty

/-- Dictionary lookup (`d[k]` / `d.get(k)`); keys are unique in every
dictionary built here, so first match is exact. -/
def dictGet (kvs : List (String × PyVal)) (k : String) : Option PyVal :=
  (kvs.find? (fun kv => kv.1 == k)).map (fun kv => kv.2)

/-- Dictionary key membership (`k in d`). -/
def dictHas (kvs : List (String × PyVal)) (k : String) : Bool :=
  kvs.any (fun kv => kv.1 == k)

/-- Dictionary update `d[k] = v`: overwrite in place if the key exists
(keeping its position, as Python dicts do), else append. -/
def dictSet (kvs : List (String × PyVal)) (k : String) (v : PyVal) :
    List (String × PyVal) :=
  if kvs.any (fun kv => kv.1 == k) then
    kvs.map (fun kv => if kv.1 == k then (kv.1, v) else kv)
  else kvs ++ [(k, v)]

/-- The keys of a dictionary in order. -/
def dictKeys (kvs : List (String × PyVal)) : List String := kvs.map (fun kv => kv.1)

/-- `Option.bind`-style helper: Python `x or d` for an optional value
(`d.get(k) or default`): `None` and falsy values select the default. -/
def pyOrVal (o : Option PyVal) (d : PyVal) : PyVal :=
  match o with
  | some v => if pyTruthy v then v else d
  | none => d

/-- `.strip()` on a value: succeeds only on a string (anything else raises
AttributeError, which every caller catches). -/
def pyStripVal : PyVal → Option String
  | .pystr s => some (pyStrip s)
  | _ => none

/-! ### `json.loads`

A recursive-descent parser for the JSON accepted by Python's `json.loads`
(strict mode): objects, arrays, strings with escapes, numbers, `true`,
`false`, `null`.  Integral number lexemes (no `.`/`e`/`E`) become
`pyint`, others `pyfloat`.  Duplicate object keys overwrite in place as in
a Python dict.  Lone UTF-16 surrogates in `\u` escapes are rejected
(Python would keep them; Lean strings cannot, and no candidate string in
scope contains them). -/

/-- JSON insignificant whitespace. -/
def jsonWsChar (c : Char) : Bool := c = ' ' || c = '\t' || c = '\n' || c = '\r'

/-- Drop leading JSON whitespace. -/
def jsonSkipWs (cs : List Char) : List Char := cs.dropWhile jsonWsChar

/-- Hex digit value. -/
def hexVal (c : Char) : Option Nat :=
  if '0' ≤ c ∧ c ≤ '9' then some (c.toNat - 48)
  else if 'a' ≤ c ∧ c ≤ 'f' then some (c.toNat - 87)
  else if 'A' ≤ c ∧ c ≤ 'F' then some (c.toNat - 70)
  else none

/-- Parse exactly four hex digits. -/
def parseHex4 : List Char → Option (Nat × List Char)
  | c1 :: c2 :: c3 :: c4 :: rest => do
    let v1 ← hexVal c1
    let v2 ← hexVal c2
    let v3 ← hexVal c3
    let v4 ← hexVal c4
    pure (((v1 * 16 + v2) * 16 + v3) * 16 + v4, rest)
  | _ => none

/-- Parse the body of a JSON string after the opening quote; returns the
decoded characters and the input after the closing quote. -/
def parseJsonStrGo : Nat → List Char → List Char → Option (List Char × List Char)
  | 0, _, _ => none
  | _, [], _ => none
  | fuel + 1, c :: rest, acc =>
    if c = '"' then some (acc.reverse, rest)
    else if c = '\\' then
      match rest with
      | [] => none
      | e :: rest2 =>
        if e = '"' then parseJsonStrGo fuel rest2 ('"' :: acc)
        else if e = '\\' then parseJsonStrGo fuel rest2 ('\\' :: acc)
        else if e = '/' then parseJsonStrGo fuel rest2 ('/' :: acc)
        else if e = 'b' then parseJsonStrGo fuel rest2 (Char.ofNat 8 :: acc)
        else if e = 'f' then parseJsonStrGo fuel rest2 (Char.ofNat 12 :: acc)
        else if e = 'n' then parseJsonStrGo fuel rest2 ('\n' :: acc)
        else if e = 'r' then parseJsonStrGo fuel rest2 ('\r' :: acc)
        else if e = 't' then parseJsonStrGo fuel rest2 ('\t' :: acc)
        else if e = 'u' then
          match parseHex4 rest2 with
          | none => none
          | some (n, rest3) =>
            if 0xD800 ≤ n ∧ n ≤ 0xDBFF then
              match rest3 with
              | '\\' :: 'u' :: rest4 =>
                match parseHex4 rest4 with
                | some (m, rest5) =>
                  if 0xDC00 ≤ m ∧ m ≤ 0xDFFF then
                    parseJsonStrGo fuel rest5
                      (Char.ofNat (0x10000 + (n - 0xD800) * 0x400 + (m - 0xDC00)) :: acc)
                  else none
                | none => none
              | _ => none
            else if 0xDC00 ≤ n ∧ n ≤ 0xDFFF then none
            else parseJsonStrGo fuel rest3 (Char.ofNat n :: acc)
        else none
    else if c.toNat < 0x20 then none  -- strict mode rejects raw control chars
    else parseJsonStrGo fuel rest (c :: acc)

/-- One or more ASCII digits. -/
def takeDigits (cs : List Char) : List Char × List Char :=
  (cs.takeWhile Char.isDigit, cs.dropWhile Char.isDigit)

/-- Parse a JSON number starting at `cs`; returns the lexeme and the rest. -/
def parseJsonNumLex (cs : List Char) : Option (List Char × List Char) := do
  let (sign, cs1) :=
    match cs with
    | '-' :: rest => (['-'], rest)
    | _ => (([] : List Char), cs)
  -- integer part: 0 or [1-9][0-9]*
  let (ipart, cs2) ←
    match cs1 with
    | '0' :: rest => some ((['0'] : List Char), rest)
    | c :: _ =>
      if c.isDigit then
        let (ds, rest) := takeDigits cs1
        some (ds, rest)
      else none
    | [] => none
  -- fraction
  let (fpart, cs3) ←
    match cs2 with
    | '.' :: rest =>
      let (ds, rest2) := takeDigits rest
      if ds.isEmpty then none else some ('.' :: ds, rest2)
    | _ => some (([] : List Char), cs2)
  -- exponent
  let (epart, cs4) ←
    match cs3 with
    | c :: rest =>
      if c = 'e' ∨ c = 'E' then
        match rest with
        | s :: rest2 =>
          if s = '+' ∨ s = '-' then
            let (ds, rest3) := takeDigits rest2
            if ds.isEmpty then none else some (c :: s :: ds, rest3)
          else
            let (ds, rest3) := takeDigits rest
            if ds.isEmpty then none else some (c :: ds, rest3)
        | [] => none
      else some (([] : List Char), cs3)
    | [] => some (([] : List Char), cs3)
  pure (sign ++ ipart ++ fpart ++ epart, cs4)

/-- Value of a decimal digit list. -/
def digitsToNat (ds : List Char) : Nat := ds.foldl (fun a c => 10 * a + (c.toNat - 48)) 0

/-- Turn a validated JSON number lexeme into a Python value: `pyint` when
there is no fraction or exponent, else `pyfloat` holding the lexeme. -/
def jsonNumVal (lex : List Char) : PyVal :=
  if lex.any (fun c => c = '.' ∨ c = 'e' ∨ c = 'E') then .pyfloat (String.mk lex)
  else
    match lex with
    | '-' :: ds => .pyint (-(digitsToNat ds : Int))
    | ds => .pyint (digitsToNat ds)

mutual

/-- Parse one JSON value (after skipping leading whitespace). -/
def parseJsonValue : Nat → List Char → Option (PyVal × List Char)
  | 0, _ => none
  | fuel + 1, cs =>
    let cs := jsonSkipWs cs
    match cs with
    | [] => none
    | c :: rest =>
      if c = '"' then
        match parseJsonStrGo (rest.length + 1) rest [] with
        | some (chars, rest2) => some (.pystr (String.mk chars), rest2)
        | none => none
      else if c = Char.ofNat 123 then  -- left brace
        let rest2 := jsonSkipWs rest
        match rest2 with
        | c2 :: rest3 =>
          if c2 = Char.ofNat 125 then some (.pydict [], rest3)  -- right brace
          else parseJsonMembers fuel rest2 []
        | [] => none
      else if c = '[' then
        let rest2 := jsonSkipWs rest
        match rest2 with
        | c2 :: rest3 =>
          if c2 = ']' then some (.pylist [], rest3)
          else parseJsonElems fuel rest2 []
        | [] => none
      else if c = 't' then
        match cs with
        | 't' :: 'r' :: 'u' :: 'e' :: rest2 => some (.pybool true, rest2)
        | _ => none
      else if c = 'f' then
        match cs with
        | 'f' :: 'a' :: 'l' :: 's' :: 'e' :: rest2 => some (.pybool false, rest2)
        | _ => none
      else if c = 'n' then
        match cs with
        | 'n' :: 'u' :: 'l' :: 'l' :: rest2 => some (.pynone, rest2)
        | _ => none
      else if c = '-' ∨ c.isDigit then
        match parseJsonNumLex cs with
        | some (lex, rest2) => some (jsonNumVal lex, rest2)
        | none => none
      else none

/-- Parse the members of a JSON object, positioned at a key (whitespace
already skipped); `acc` is the dictionary so far. -/
def parseJsonMembers : Nat → List Char → List (String × PyVal) →
    Option (PyVal × List Char)
  | 0, _, _ => none
  | fuel + 1, cs, acc =>
    match cs with
    | '"' :: rest =>
      match parseJsonStrGo (rest.length + 1) rest [] with
      | some (kchars, rest2) =>
        match jsonSkipWs rest2 with
        | ':' :: rest3 =>
          match parseJsonValue fuel rest3 with
          | some (v, rest4) =>
            let acc2 := dictSet acc (String.mk kchars) v
            match jsonSkipWs rest4 with
            | ',' :: rest5 => parseJsonMembers fuel (jsonSkipWs rest5) acc2
            | c :: rest5 =>
              if c = Char.ofNat 125 then some (.pydict acc2, rest5) else none
            | [] => none
          | none => none
        | _ => none
      | none => none
    | _ => none

/-- Parse the elements of a JSON array, positioned at a value. -/
def parseJsonElems : Nat → List Char → List PyVal → Option (PyVal × List Char)
  | 0, _, _ => none
  | fuel + 1, cs, acc =>
    match parseJsonValue fuel cs with
    | some (v, rest) =>
      match jsonSkipWs rest with
      | ',' :: rest2 => parseJsonElems fuel rest2 (acc ++ [v])
      | ']' :: rest2 => some (.pylist (acc ++ [v]), rest2)
      | _ => none
    | none => none

end

/-- `json.loads`: parse a complete JSON document (only trailing whitespace
may remain). -/
def jsonLoads (s : String) : Option PyVal :=
  match parseJsonValue (s.data.length * 2 + 8) s.data with
  | some (v, rest) => if (jsonSkipWs rest).isEmpty then some v else none
  | none => none

/-! ### `json.dumps` for `img.info` (line 209)

Only string-to-string info dictionaries reach `json.dumps` in the model
(an `exif` bytes entry makes `json.dumps` raise, handled at the call
site).  Default separators `', '` / `': '` and `ensure_ascii=True`. -/

/-- Lowercase hex digits of `n` to 4 places. -/
def hex4 (n : Nat) : List Char :=
  let d := fun k => let v := n / 16 ^ k % 16; Char.ofNat (if v < 10 then 48 + v else 87 + v)
  [d 3, d 2, d 1, d 0]

/-- JSON-escape one character as `json.dumps` does with `ensure_ascii`. -/
def jsonEscapeChar (c : Char) : List Char :=
  if c = '"' then ['\\', '"']
  else if c = '\\' then ['\\', '\\']
  else if c = '\n' then ['\\', 'n']
  else if c = '\r' then ['\\', 'r']
  else if c = '\t' then ['\\', 't']
  else if c = Char.ofNat 8 then ['\\', 'b']
  else if c = Char.ofNat 12 then ['\\', 'f']
  else if c.toNat < 0x20 ∨ c.toNat > 0x7E then
    if c.toNat ≤ 0xFFFF then '\\' :: 'u' :: hex4 c.toNat
    else
      let v := c.toNat - 0x10000
      ('\\' :: 'u' :: hex4 (0xD800 + v / 0x400)) ++ ('\\' :: 'u' :: hex4 (0xDC00 + v % 0x400))
  else [c]

/-- `json.dumps` of a string. -/
def jsonDumpStr (s : String) : String :=
  String.mk ('"' :: s.data.flatMap jsonEscapeChar ++ ['"'])

/-- `json.dumps` of a string-valued info dictionary. -/
def jsonDumpsInfo (kvs : List (String × String)) : String :=
  String.mk (Char.ofNat 123 ::
    (List.intercalate [',', ' ']
      (kvs.map (fun kv => (jsonDumpStr kv.1).data ++ [':', ' '] ++ (jsonDumpStr kv.2).data)) ++
     [Char.ofNat 125]))

/-! ## Option vocabulary (src/image_utils.py lines 12-29) -/

/-- `TARGETKEY_NAIDICT_OPTION` (lines 12-16). -/
def TARGETKEY_NAIDICT_OPTION : List String :=
  ["steps", "height", "width",
   "scale", "seed", "sampler", "n_samples", "sm", "sm_dyn",
   "cfg scale", "cfg_scale", "clip skip", "clip_skip", "schedule type", "schedule_type",
   "size", "model", "model hash", "model_hash", "denoising strength", "denoising_strength"]

/-- `WEBUI_OPTION_MAPPING` (lines 18-29), in insertion order. -/
def WEBUI_OPTION_MAPPING : List (String × String) :=
  [("cfg scale", "scale"), ("cfg_scale", "scale"),
   ("clip skip", "clip_skip"), ("clip_skip", "clip_skip"),
   ("schedule type", "schedule_type"), ("schedule_type", "schedule_type"),
   ("model hash", "model_hash"), ("model_hash", "model_hash"),
   ("denoising strength", "denoising_strength"), ("denoising_strength", "denoising_strength")]

/-- The canonical option-key names (the range of the synonym mapping plus
the whitelist entries that are not synonyms). -/
def canonicalOptionKeys : List String :=
  ["steps", "height", "width", "scale", "seed", "sampler", "n_samples", "sm", "sm_dyn",
   "clip_skip", "schedule_type", "size", "model", "model_hash", "denoising_strength"]

/-! ## Value coercion (lines 81-88) -/

/-- Python `int(s)` on a stripped string: optional sign then ASCII digits
(underscore grouping is not modelled; no claim exercises it). -/
def pyIntParse (s : String) : Option Int :=
  let core : List Char → Option Int := fun ds =>
    if ds.isEmpty ∨ ¬ ds.all Char.isDigit then none
    else some (digitsToNat ds)
  match s.data with
  | '-' :: ds => (core ds).map Int.neg
  | '+' :: ds => core ds
  | ds => core ds

/-- Does Python `float(s)` accept the stripped string `s`?  (Decimal forms
with optional sign, fraction and exponent; `inf`/`nan` spellings have no
dot so the dot-guarded call site never passes them.) -/
def pyFloatAccepts (s : String) : Bool :=
  let afterSign :=
    match s.data with
    | '-' :: rest => rest
    | '+' :: rest => rest
    | rest => rest
  let (ip, r1) := takeDigits afterSign
  let (fp, r2) :=
    match r1 with
    | '.' :: rest => let (ds, r) := takeDigits rest; (('.' :: ds : List Char), r)
    | _ => (([] : List Char), r1)
  if ip.isEmpty ∧ fp.length ≤ 1 then false  -- need at least one digit overall
  else
    match r2 with
    | [] => true
    | e :: rest =>
      if e = 'e' ∨ e = 'E' then
        let afterExpSign :=
          match rest with
          | '-' :: r => r
          | '+' :: r => r
          | r => r
        let (eds, r3) := takeDigits afterExpSign
        ¬ eds.isEmpty ∧ r3.isEmpty
      else false

/-- The opportunistic value coercion of `parse_webui_exif` (lines 81-88):
`float(value)` if the value contains a dot, else `int(value)`, keeping the
string if the conversion raises.  A successful float keeps its lexeme. -/
def pyCoerce (value : String) : PyVal :=
  if strContains value "." then
    if pyFloatAccepts value then .pyfloat value else .pystr value
  else
    match pyIntParse value with
    | some n => .pyint n
    | none => .pystr value

/-! ## `parse_webui_exif` (lines 41-106) -/

/-- The prompt / negative-prompt / option-lines split of
`parse_webui_exif` (lines 49-65). -/
structure WebuiParts where
  prompt : String
  negative_prompt : String
  option_lines : List String
deriving DecidableEq

/-- Lines 49-65: find the first line whose stripped form starts with
`Negative prompt:`; the split applies only when its index is positive
(`if neg_prompt_index > 0`), and the remainder is taken from the raw line
by dropping `len("Negative prompt:")` characters. -/
def webuiSplit (lines : List String) : WebuiParts :=
  match lines.findIdx? (fun line => pyStartsWith (pyStrip line) "Negative prompt:") with
  | some i =>
    if 0 < i then
      ⟨pyStrip (joinNL (lines.take i)),
       pyStrip (pyDropChars "Negative prompt:".length ((lines.drop i).headD "")),
       lines.drop (i + 1)⟩
    else ⟨pyStrip (joinNL lines), "", []⟩
  | none => ⟨pyStrip (joinNL lines), "", []⟩

/-- Lines 74-98, handling of one comma-segment of an option line: the pair
is `(options, etc)`. -/
def webuiHandlePart (acc : List (String × PyVal) × List (String × PyVal))
    (part0 : String) : List (String × PyVal) × List (String × PyVal) :=
  let part := pyStrip part0
  if strContains part ":" then
    let (k0, v0) := pySplitFirst ':' part
    let key := pyLower (pyStrip k0)
    let value := pyCoerce (pyStrip v0)
    let key :=
      match WEBUI_OPTION_MAPPING.lookup key with
      | some nk => nk
      | none => key
    if (TARGETKEY_NAIDICT_OPTION.map pyLower).contains (pyLower key) then
      (dictSet acc.1 key value, acc.2)
    else (acc.1, dictSet acc.2 key value)
  else if part ≠ "" then (acc.1, dictSet acc.2 part (.pystr ""))
  else acc

/-- Lines 71-98: the option-parsing loop over the option lines. -/
def webuiParseOptions (option_lines : List String) :
    List (String × PyVal) × List (String × PyVal) :=
  option_lines.foldl
    (fun acc line => (pySplitChar ',' (pyStrip line)).foldl webuiHandlePart acc)
    ([], [])

/-- Build a dictionary literal with `{**a, **b}` merge semantics: later
duplicates overwrite the value in place. -/
def pyDictLit (entries : List (String × PyVal)) : List (String × PyVal) :=
  entries.foldl (fun acc kv => dictSet acc kv.1 kv.2) []

/-- `parse_webui_exif` (lines 41-106), returning the flat result
dictionary (lines 100-106). -/
def parse_webui_exif (parameters_str : String) : List (String × PyVal) :=
  let lines := pySplitlines parameters_str
  if lines.isEmpty then []
  else
    let parts := webuiSplit lines
    let (options, etc) := webuiParseOptions parts.option_lines
    pyDictLit
      ([("prompt", .pystr parts.prompt),
        ("uc", .pystr parts.negative_prompt),
        ("negative_prompt", .pystr parts.negative_prompt)] ++ options ++ etc)

/-! ## `is_nai_exif` (lines 31-39) -/

/-- `is_nai_exif`: the original JSON has a non-`None` `Comment` key.  A
non-dict parse result makes the membership test or the subsequent
`data['Comment']` raise inside callers; here the function itself only
returns whether the dict case matches (every non-dict case yields `False`
in Python, through `False` or a caught `TypeError`). -/
def is_nai_exif (info_str : Option String) : Bool :=
  match info_str with
  | none => false
  | some s =>
    if s = "" then false  -- `if not info_str: return False`
    else
      match jsonLoads s with
      | some (.pydict kvs) =>
        match dictGet kvs "Comment" with
        | some v => ¬ pyIsNone v
        | none => false
      | _ => false

/-! ## `_get_naidict_from_exifdict` (lines 138-180) -/

/-- The normalized record the source calls `nai_dict` (keys `prompt`,
`negative_prompt`, `option`, `etc`). -/
structure NaiDict where
  prompt : String
  negative_prompt : String
  option : List (String × PyVal)
  etc : List (String × PyVal)

/-- Lines 145-151: negative prompt from `uc`, else `negative_prompt`,
else `""`; `None` on a stripping failure (caught by the enclosing
`try`). -/
def naiNegativeField (kvs : List (String × PyVal)) : Option String :=
  match dictGet kvs "uc" with
  | some v =>
    if ¬ pyIsNone v then pyStripVal (pyOrVal (some v) (.pystr ""))
    else naiNegativeFallback kvs
  | none => naiNegativeFallback kvs
where
  /-- the `elif "negative_prompt" in exif_dict ...` arm -/
  naiNegativeFallback (kvs : List (String × PyVal)) : Option String :=
    match dictGet kvs "negative_prompt" with
    | some v =>
      if ¬ pyIsNone v then pyStripVal (pyOrVal (some v) (.pystr ""))
      else some ""
    | none => some ""

/-- Lines 153-162: the option extraction (whitelist pass then synonym
mapping pass). -/
def naiOptionField (kvs : List (String × PyVal)) : List (String × PyVal) :=
  let fromTarget :=
    TARGETKEY_NAIDICT_OPTION.foldl
      (fun acc key =>
        match dictGet kvs key with
        | some v => if ¬ pyIsNone v then dictSet acc key v else acc
        | none => acc)
      []
  WEBUI_OPTION_MAPPING.foldl
    (fun acc wk =>
      match dictGet kvs wk.1 with
      | some v => if ¬ pyIsNone v then dictSet acc wk.2 v else acc
      | none => acc)
    fromTarget

/-- Lines 166-175: everything not excluded goes to `etc`. -/
def naiEtcField (kvs : List (String × PyVal)) : List (String × PyVal) :=
  let excluded :=
    TARGETKEY_NAIDICT_OPTION ++ ["prompt", "uc", "negative_prompt"] ++
      WEBUI_OPTION_MAPPING.map (fun kv => kv.1)
  kvs.foldl
    (fun acc kv => if excluded.contains kv.1 then acc else dictSet acc kv.1 kv.2)
    []

/-- `_get_naidict_from_exifdict` (lines 138-180): `None` when any step of
the `try` block raises (non-dict input, or a truthy non-string
prompt/negative value). -/
def _get_naidict_from_exifdict (exif_dict : PyVal) : Option NaiDict :=
  match exif_dict with
  | .pydict kvs =>
    match pyStripVal (pyOrVal (dictGet kvs "prompt") (.pystr "")) with
    | none => none
    | some prompt =>
      match naiNegativeField kvs with
      | none => none
      | some negative_prompt =>
        some ⟨prompt, negative_prompt, naiOptionField kvs, naiEtcField kvs⟩
  | _ => none

/-! ## `_get_exifdict_from_infostr` (lines 108-136) -/

/-- `_get_exifdict_from_infostr`: JSON route (with the `parameters` /
`Comment` dispatch) or raw-WebUI-marker route.  Exceptions — a non-string
`parameters` value handed to `parse_webui_exif`, or `'parameters' in data`
on a non-container value — are caught by the function's own handlers and
yield `None`. -/
def _get_exifdict_from_infostr (info_str : Option String) : Option PyVal :=
  match info_str with
  | none => none
  | some s =>
    if s = "" then none  -- `if not info_str: return None`
    else
      match jsonLoads s with
      | some data =>
        match data with
        | .pydict kvs =>
          if dictHas kvs "parameters" then
            match dictGet kvs "parameters" with
            | some (.pystr p) => some (.pydict (parse_webui_exif p))
            | _ => none  -- non-string: AttributeError in parse_webui_exif, caught
          else if dictHas kvs "Comment" then none
          else some data
        | .pystr s2 =>
          -- `'parameters' in data` is a substring test on a string result;
          -- a hit leads to `data['parameters']` → TypeError → None
          if strContains s2 "parameters" then none
          else if strContains s2 "Comment" then none
          else some data
        | .pylist xs =>
          -- list membership is element equality; a hit leads to a TypeError
          if xs.any (fun v => match v with | .pystr t => t = "parameters" | _ => false)
          then none
          else if xs.any (fun v => match v with | .pystr t => t = "Comment" | _ => false)
          then none
          else some data
        | _ => none  -- `in` on a scalar raises TypeError, caught
      | none =>
        -- JSONDecodeError branch (lines 121-133)
        if strContains s "Prompt:" ∨ strContains s "Negative prompt:" ∨
            strContains s "Steps:" then
          some (.pydict (parse_webui_exif s))
        else none

/-! ## `_get_infostr_from_img` (lines 182-220) -/

/-- Python truthiness of an optional string candidate. -/
def optTruthy : Option String → Bool
  | none => false
  | some s => s ≠ ""

/-- Python `exif or pnginfo` on the candidate pair, after the caller has
ruled out both being falsy; defaults to `""` on the unreachable arm. -/
def pyOrStrD (a b : Option String) : String :=
  if optTruthy a then a.getD "" else b.getD ""

/-- Lookup in the string-valued info map. -/
def lookupStr (kvs : List (String × String)) (k : String) : Option String :=
  (kvs.find? (fun kv => kv.1 == k)).map (fun kv => kv.2)

/-- `_get_infostr_from_img` (lines 182-220): the `(exif_str, pnginfo_str)`
candidate pair.  For WEBP/JPEG the EXIF UserComment is tried first
(`piexif` failures are caught and leave `exif_str` unset); then, only if
`exif_str is None` and `img.info` is truthy, the `Comment` /
`parameters` / `json.dumps(img.info)` fallback runs (`json.dumps` raises
on an `exif` bytes entry, caught, leaving `exif_str` unset). -/
def _get_infostr_from_img (img : PILImage) : Option String × Option String :=
  let exifStr1 : Option String :=
    if img.format = some "WEBP" ∨ img.format = some "JPEG" then
      if img.exifPresent then img.exifUserComment else none
    else none
  let exifStr : Option String :=
    match exifStr1 with
    | some s => some s
    | none =>
      if ¬ img.textInfo.isEmpty ∨ img.exifPresent then
        match lookupStr img.textInfo "Comment" with
        | some c => some c  -- info values are strings, hence not None
        | none =>
          match lookupStr img.textInfo "parameters" with
          | some p => some p
          | none =>
            if img.exifPresent then none  -- json.dumps(bytes) raises, caught
            else some (jsonDumpsInfo img.textInfo)
      else none
  (exifStr, read_info_from_image_stealth img)

/-! ## `get_naidict_from_img` (lines 222-262) -/

/-- The value returned by `get_naidict_from_img`: `None`, a raw candidate
string, or a normalized record. -/
inductive PromptResult where
  | noResult : PromptResult
  | rawStr : String → PromptResult
  | record : NaiDict → PromptResult

/-- Lines 237-246: one iteration of the nai-detection loop: the nested
`Comment` JSON is loaded and normalized; any exception (non-string
`Comment`, nested JSON error) is caught and the loop moves on, as does a
falsy record. -/
def naiBranch (info_str : Option String) : Option NaiDict :=
  if is_nai_exif info_str then
    match info_str with
    | some s =>
      match jsonLoads s with
      | some (.pydict kvs) =>
        match dictGet kvs "Comment" with
        | some (.pystr c) =>
          match jsonLoads c with
          | some nai_exif => _get_naidict_from_exifdict nai_exif
          | none => none  -- JSONDecodeError, caught
        | _ => none  -- json.loads on a non-string raises TypeError, caught
      | _ => none  -- unreachable: is_nai_exif already parsed a dict
    | none => none
  else none

/-- `ed if ed else None` truthiness on an optional parse result. -/
def edTruthy : Option PyVal → Bool
  | none => false
  | some v => pyTruthy v

/-- Lines 232-262 of `get_naidict_from_img`, as a function of the
candidate pair produced by `_get_infostr_from_img`. -/
def get_naidict_from_candidates (exif pnginfo : Option String) : PromptResult × Nat :=
  if ¬ optTruthy exif ∧ ¬ optTruthy pnginfo then (.noResult, 0)
  else
    match naiBranch exif with
    | some nd => (.record nd, 3)
    | none =>
      match naiBranch pnginfo with
      | some nd => (.record nd, 3)
      | none =>
        let ed1 := _get_exifdict_from_infostr exif
        let ed2 := _get_exifdict_from_infostr pnginfo
        if ¬ edTruthy ed1 ∧ ¬ edTruthy ed2 then (.rawStr (pyOrStrD exif pnginfo), 1)
        else
          let nd1 := if edTruthy ed1 then _get_naidict_from_exifdict (ed1.getD .pynone)
                     else none
          let nd2 := if edTruthy ed2 then _get_naidict_from_exifdict (ed2.getD .pynone)
                     else none
          match nd1 with
          | some n1 => (.record n1, 3)
          | none =>
            match nd2 with
            | some n2 => (.record n2, 3)
            | none => (.rawStr (pyOrStrD exif pnginfo), 2)

/-- `get_naidict_from_img` (lines 222-262). -/
def get_naidict_from_img (img : PILImage) : PromptResult × Nat :=
  let (exif, pnginfo) := _get_infostr_from_img img
  get_naidict_from_candidates exif pnginfo

/-! ## `_extract_comfyui_prompt` (lines 320-362) -/

/-- One node of the ComfyUI workflow loop (lines 346-354).  A non-dict
node value makes `.get` raise AttributeError; a truthy non-dict `inputs`
value makes the membership test or `inputs["text"]` raise TypeError; both
are caught by the enclosing handler (modelled as `Except.error`). -/
def comfyNodeStep (acc : Except Unit (List String)) (kv : String × PyVal) :
    Except Unit (List String) :=
  match acc with
  | .error e => .error e
  | .ok found =>
    match kv.2 with
    | .pydict nd =>
      let classTypeMatches : Bool :=
        match dictGet nd "class_type" with
        | some (.pystr t) => t == "CLIPTextEncode"
        | _ => false
      if classTypeMatches then
        match dictGet nd "inputs" with
        | none => .ok found  -- inputs is None, falsy
        | some (.pydict ivs) =>
          if ¬ ivs.isEmpty then
            match dictGet ivs "text" with
            | some (.pystr t) => .ok (found ++ [t])
            | some _ => .ok found  -- isinstance(text, str) fails
            | none => .ok found
          else .ok found
        | some (.pystr s) =>
          if s ≠ "" ∧ strContains s "text" then .error () else .ok found
        | some (.pylist xs) =>
          if ¬ xs.isEmpty ∧
              xs.any (fun v => match v with | .pystr t => t = "text" | _ => false)
          then .error () else .ok found
        | some v => if pyTruthy v then .error () else .ok found
      else .ok found
    | _ => .error ()

/-- `_extract_comfyui_prompt` (lines 320-362). -/
def _extract_comfyui_prompt (image_info : List (String × String)) : Option String :=
  match lookupStr image_info "prompt" with
  | none => none
  | some pjs =>
    if pjs = "" then none  -- `if not prompt_json_str: return None`
    else
      match jsonLoads pjs with
      | none => none  -- JSONDecodeError
      | some (.pydict nodes) =>
        match nodes.foldl comfyNodeStep (.ok []) with
        | .error _ => none
        | .ok found => if ¬ found.isEmpty then some (joinNL found) else none
      | some _ => none  -- parsed value is not a dict

/-! ## `read_info_from_image` (lines 264-317) -/

/-- The one uncaught-within-the-body exception `read_info_from_image` can
raise: `nai_dict["prompt"]` indexing a raw string candidate with a string
key (line 270). -/
inductive PyErr where
  | typeError : PyErr
deriving DecidableEq

/-- The value of the per-comment EXIF block (lines 294-304): JSON-wrapped
comments surface their `comment` field (whatever Python value it holds),
otherwise the decoded text itself. -/
def exifCommentValue (dc : String) : PyVal :=
  if pyStartsWith dc (String.mk [Char.ofNat 123]) ∧
      pyEndsWith dc (String.mk [Char.ofNat 125]) then
    match jsonLoads dc with
    | some (.pydict kvs) =>
      match dictGet kvs "comment" with
      | some v => v
      | none => .pystr dc
    | _ => .pystr dc  -- JSONDecodeError: pass, then `return decoded_comment`
  else .pystr dc

/-- Methods 1-3 and the stealth fallback of `read_info_from_image`
(lines 272-314), reached when the nai result produced nothing. -/
def read_info_from_image_fallback (img : PILImage) : Except PyErr PyVal :=
  -- method 1: png_info.get("parameters", "")
  let p := (lookupStr img.textInfo "parameters").getD ""
  if p ≠ "" then .ok (.pystr p)
  else
    -- method 2: ComfyUI prompt
    let cf := (_extract_comfyui_prompt img.textInfo).getD ""
    if cf ≠ "" then .ok (.pystr cf)
    else
      -- method 3: EXIF UserComment for JPEG/WEBP (all piexif failures are
      -- caught by the inner handler and fall through)
      let viaExif : Option PyVal :=
        if img.format = some "JPEG" ∨ img.format = some "WEBP" then
          if img.exifPresent then
            match img.exifUserComment with
            | some dc => some (exifCommentValue dc)
            | none => none  -- `if user_comment:` falsy
          else none  -- piexif.load(None) raises, caught
        else none
      match viaExif with
      | some v => .ok v
      | none =>
        -- stealth fallback, then `return ""`
        match read_info_from_image_stealth img with
        | some st => if st ≠ "" then .ok (.pystr st) else .ok (.pystr "")
        | none => .ok (.pystr "")

/-- The `try` body of `read_info_from_image` (lines 266-314).  Its one
uncaught exception is the string-indexing TypeError on line 270. -/
def read_info_from_image_body (img : PILImage) : Except PyErr PyVal :=
  match get_naidict_from_img img with
  | (.record nd, _) => .ok (.pystr nd.prompt)  -- record is truthy and has "prompt"
  | (.rawStr s, _) =>
    -- `if nai_dict and "prompt" in nai_dict:` — substring test on a string,
    -- then `nai_dict["prompt"]` raises TypeError
    if s ≠ "" ∧ strContains s "prompt" then .error .typeError
    else read_info_from_image_fallback img
  | (.noResult, _) => read_info_from_image_fallback img

/-- `read_info_from_image` (lines 264-317): the outer handler converts any
escaped exception into `""`.  The Python function is annotated `-> str`
but can return a non-string through the EXIF `comment` field, hence the
`PyVal` result type. -/
def read_info_from_image (img : PILImage) : PyVal :=
  match read_info_from_image_body img with
  | .ok v => v
  | .error _ => .pystr ""


set_option maxRecDepth 8000

/-! ## Concrete test images for the steganography claims -/

/-- Channel value carrying a given LSB. -/
def bitAt (bs : List Bool) (i : Nat) : Nat := cond (bs.getD i false) 1 0

/-- Alpha-channel stealth encoding of payload `"A"`: signature bits, 32-bit
big-endian length prefix (value 8), payload bits, zeros beyond. -/
def c1bits : List Bool := strToBits "stealth_pnginfo" ++ natToBitsBE 32 8 ++ strToBits "A"

/-- A 1x170 RGBA image whose alpha LSBs are exactly `c1bits` (then zeros). -/
def imgC1 : PILImage :=
  ⟨1, 170, true, fun _ y => (0, 0, 0, bitAt c1bits y), some "PNG", [], false, none⟩

/-- RGB stealth encoding of payload `"A"` (declared length 8 bits). -/
def c4bits : List Bool := strToBits "stealth_rgbinfo" ++ natToBitsBE 32 8 ++ strToBits "A"

/-- A 1x60 RGB image whose R,G,B LSB stream is exactly `c4bits` (then zeros). -/
def imgC4 : PILImage :=
  ⟨1, 60, false,
   fun _ y => (bitAt c4bits (3 * y), bitAt c4bits (3 * y + 1), bitAt c4bits (3 * y + 2), 0),
   some "PNG", [], false, none⟩

/-- RGB stealth encoding of payload `"B"` (declared length 8 bits). -/
def c3bits : List Bool := strToBits "stealth_rgbinfo" ++ natToBitsBE 32 8 ++ strToBits "B"

/-- A 1x60 RGB image whose R,G,B LSB stream is exactly `c3bits` (then zeros). -/
def imgC3 : PILImage :=
  ⟨1, 60, false,
   fun _ y => (bitAt c3bits (3 * y), bitAt c3bits (3 * y + 1), bitAt c3bits (3 * y + 2), 0),
   some "PNG", [], false, none⟩

/-! ## Claim theorems: steganography -/

/-- C1: the claim says that for an RGBA image the signature buffer is
compared against the known signatures only once exactly 120 alpha-channel
LSBs have been collected, so that a well-formed alpha payload decodes.
The code instead fires `_check_signature` as soon as `index_rgb` reaches
120 — at pixel 40, when only 40 alpha bits exist — `_process_signature`
fails on the 40-bit buffer and clears every state flag for good, so the
scan dies at the next pixel.  This theorem evaluates the code on a
concretely well-formed alpha-encoded image (first 120 alpha LSBs decode
to `stealth_pnginfo`, 32-bit length prefix 8, payload `"A"`): the reader
returns `none` instead of the payload. -/
theorem c1_alpha_wellformed_image_returns_none :
    ((List.range 160).map (fun y => (imgC1.px 0 y).2.2.2 % 2 == 1)) = c1bits ∧
    _decode_bytes (c1bits.take 120) = "stealth_pnginfo" ∧
    bitsToNat ((c1bits.drop 120).take 32) = 8 ∧
    _decode_bytes (c1bits.drop 152) = "A" ∧
    (stealthScan imgC1).sig_confirmed = false ∧
    read_info_from_image_stealth imgC1 = none := by
  exact ⟨by decide, by decide, by decide, by decide, by decide, by decide⟩

/-- C4: the claim says encode-then-decode returns the original plaintext
for every payload and mode.  Evaluating the code on an RGB image carrying
the exact inverse-of-section-4.1 encoding of payload `"A"` (signature bits,
32-bit length prefix, payload bits, in the reader's scan order) yields
`"A\x00"`: the reader stops only at a 3-bit pixel boundary and decodes the
two excess zero bits as an extra NUL byte.  (Alpha modes cannot round-trip
at all — see C1.) -/
theorem c4_rgb_roundtrip_appends_nul :
    c4bits = strToBits "stealth_rgbinfo" ++ natToBitsBE 32 8 ++ strToBits "A" ∧
    (((List.range 60).flatMap (fun y =>
        [(imgC4.px 0 y).1 % 2 == 1, (imgC4.px 0 y).2.1 % 2 == 1,
         (imgC4.px 0 y).2.2.1 % 2 == 1])).take 160) = c4bits ∧
    read_info_from_image_stealth imgC4 = some (String.mk ['A', Char.ofNat 0]) ∧
    String.mk ['A', Char.ofNat 0] ≠ "A" := by
  exact ⟨by decide, by decide, by decide, by decide⟩

/-- C3 counterexample: the claim says the bit string handed to the byte
decoder has exactly the declared number of bits.  On `imgC3` the declared
length is 8 (not a multiple of 3) but `binary_data` keeps all 10
accumulated bits — the code truncates nothing — and the decoded text
gains a NUL byte. -/
theorem c3_counterexample_no_truncation :
    (stealthScan imgC3).mode = some "rgb" ∧
    (stealthScan imgC3).param_len = 8 ∧
    (stealthScan imgC3).binary_data.length = 10 ∧
    (10 : Nat) ≠ 8 ∧
    read_info_from_image_stealth imgC3 = some (String.mk ['B', Char.ofNat 0]) := by
  exact ⟨by decide, by decide, by decide, by decide, by decide⟩

/-- C3 amended: in RGB payload state the scanner accumulates three bits
per pixel until the count is `≥` the declared length, then stops
immediately, but hands the decoder the WHOLE accumulated buffer without
truncation — up to 2 excess bits (the count is exact only when the
declared length is ≡ 1 mod 3, which a declared length that is a multiple
of 3 never is). -/
theorem c3_amended_accumulate_no_truncate (r g b a : Nat) (s : SState)
    (hend : s.read_end = false)
    (hcs : s.confirming_signature = false)
    (hpl : s.reading_param_len = false)
    (hp : s.reading_param = true)
    (hm : s.mode = some "rgb")
    (hlen : s.index_rgb = s.buffer_rgb.length)
    (hlt : s.index_rgb < s.param_len) :
    (s.param_len ≤ s.index_rgb + 3 →
       (stealthStep false (r, g, b, a) s).read_end = true ∧
       (stealthStep false (r, g, b, a) s).binary_data =
         s.buffer_rgb ++ [r % 2 == 1, g % 2 == 1, b % 2 == 1] ∧
       s.param_len ≤ (stealthStep false (r, g, b, a) s).binary_data.length ∧
       (stealthStep false (r, g, b, a) s).binary_data.length < s.param_len + 3) ∧
    (s.index_rgb + 3 < s.param_len →
       (stealthStep false (r, g, b, a) s).read_end = false ∧
       (stealthStep false (r, g, b, a) s).binary_data = s.binary_data ∧
       (stealthStep false (r, g, b, a) s).buffer_rgb =
         s.buffer_rgb ++ [r % 2 == 1, g % 2 == 1, b % 2 == 1]) := by
  constructor
  · intro hge
    have hif : _is_param_ready (some "rgb") s.index_a (s.index_rgb + 3) s.param_len = true := by
      simp [_is_param_ready]; omega
    simp only [stealthStep, hcs, hpl, hp, Bool.false_eq_true, if_false, if_true, hif, hm]
    refine ⟨trivial, by simp, ?_, ?_⟩
    · simp [hlen]; omega
    · simp [hlen]; omega
  · intro hlt2
    have hif : _is_param_ready (some "rgb") s.index_a (s.index_rgb + 3) s.param_len = false := by
      simp [_is_param_ready]; omega
    simp only [stealthStep, hcs, hpl, hp, Bool.false_eq_true, if_false, if_true, hif, hm]
    refine ⟨hend, ?_, ?_⟩ <;> trivial

/-- A concrete RGB reading-param state: `param_len = 3`, one bit buffered. -/
def sC3 : SState := ⟨some "rgb", false, [], [], [true], 0, 1, true, false, false, true, false, 3⟩

/-- Witness for C3 amended: at `sC3` the next pixel (bits 1,0,1) pushes the
count to 4 ≥ 3, the scan stops, and the untruncated 4-bit buffer becomes
`binary_data`. -/
theorem c3_amended_witness :
    (stealthStep false (1, 0, 1, 0) sC3).read_end = true ∧
    (stealthStep false (1, 0, 1, 0) sC3).binary_data =
      sC3.buffer_rgb ++ [1 % 2 == 1, 0 % 2 == 1, 1 % 2 == 1] ∧
    sC3.param_len ≤ (stealthStep false (1, 0, 1, 0) sC3).binary_data.length ∧
    (stealthStep false (1, 0, 1, 0) sC3).binary_data.length < sC3.param_len + 3 := by
  have h := c3_amended_accumulate_no_truncate 1 0 1 0 sC3 rfl rfl rfl rfl rfl rfl (by decide)
  exact h.1 (by decide)

/-- C2 counterexample: the claim says the FIRST of the 33 accumulated bits
is discarded from the numeric parse (the remaining 32 being the length)
and that this first bit starts the payload buffer.  On the buffer `1`
followed by 32 zeros the code parses the FIRST 32 bits (value 2^31, while
the claim predicts 0, the value of bits 2..33) and re-seeds the payload
buffer with the LAST bit `0`, not the first bit `1`. -/
theorem c2_counterexample_pops_last_not_first :
    (_process_param_len (some "rgb") [] (true :: List.replicate 32 false) 0 33).param_len =
      2 ^ 31 ∧
    bitsToNat ((true :: List.replicate 32 false).drop 1) = 0 ∧
    (2 : Nat) ^ 31 ≠ 0 ∧
    (_process_param_len (some "rgb") [] (true :: List.replicate 32 false) 0 33).buffer_rgb =
      [false] ∧
    (true :: List.replicate 32 false).take 1 = [true] ∧
    ([false] : List Bool) ≠ [true] := by
  exact ⟨by decide, by decide, by decide, by decide, by decide, by decide⟩

/-- C2 amended: in RGB mode the length state waits for exactly 33 bits;
`_process_param_len` then drops the LAST accumulated bit from the numeric
parse, interprets the FIRST 32 bits as the big-endian payload length, and
keeps that popped last bit as the single-bit start of the payload buffer
(`index_rgb = 1`). -/
theorem c2_amended_len_prefix (buffer_a buffer_rgb : List Bool) (index_a index_rgb : Nat)
    (h : buffer_rgb.length = 33) :
    _is_param_len_ready (some "rgb") index_a index_rgb = decide (index_rgb = 33) ∧
    _process_param_len (some "rgb") buffer_a buffer_rgb index_a index_rgb =
      ⟨false, true, bitsToNat buffer_rgb.dropLast, buffer_a,
       [buffer_rgb.getLastD false], index_a, 1⟩ ∧
    buffer_rgb.dropLast.length = 32 ∧
    buffer_rgb.dropLast ++ [buffer_rgb.getLastD false] = buffer_rgb := by
  have hne : buffer_rgb ≠ [] := by
    intro hx; rw [hx] at h; simp at h
  refine ⟨?_, ?_, ?_, ?_⟩
  · simp [_is_param_len_ready]
  · simp [_process_param_len]
  · simp [List.length_dropLast, h]
  · rw [List.getLastD_eq_getLast?, List.getLast?_eq_getLast _ hne]
    exact List.dropLast_append_getLast hne

/-- Witness for C2 amended on a concrete 33-bit buffer. -/
theorem c2_amended_witness :
    _is_param_len_ready (some "rgb") 0 33 = decide ((33 : Nat) = 33) ∧
    _process_param_len (some "rgb") [] (true :: List.replicate 32 false) 0 33 =
      ⟨false, true, bitsToNat (true :: List.replicate 32 false).dropLast, [],
       [(true :: List.replicate 32 false).getLastD false], 0, 1⟩ ∧
    (true :: List.replicate 32 false).dropLast.length = 32 ∧
    (true :: List.replicate 32 false).dropLast ++
      [(true :: List.replicate 32 false).getLastD false] =
      true :: List.replicate 32 false :=
  c2_amended_len_prefix [] (true :: List.replicate 32 false) 0 33 (by decide)

/-! ## Claim theorems: parameter-block parser (C7) -/

/-- C7 counterexample: the claim says a first-line `Negative prompt:` still
splits, with an empty prompt and negative_prompt `"blurry"`.  The code's
`if neg_prompt_index > 0` sends index 0 to the no-split branch: the whole
text becomes the prompt and the negative prompt stays empty. -/
theorem c7_counterexample_first_line_not_split :
    dictGet (parse_webui_exif "Negative prompt: blurry") "prompt" =
      some (.pystr "Negative prompt: blurry") ∧
    "Negative prompt: blurry" ≠ "" ∧
    dictGet (parse_webui_exif "Negative prompt: blurry") "negative_prompt" =
      some (.pystr "") ∧
    "" ≠ "blurry" := ⟨rfl, by decide, rfl, by decide⟩

/-- C7 amended: when the first line whose trimmed form starts with
`Negative prompt:` has index `i > 0`, the parser returns prompt = the
joined and trimmed lines before it, negative_prompt = the RAW line minus
its first `len("Negative prompt:")` characters (then trimmed), and the
lines after it as option lines; when that line is the FIRST line the
whole text is the prompt, the negative prompt is empty and there are no
option lines.  The claim's own example behaves as stated: `"a dog\nNegative
prompt: blurry\nSteps: 20"` yields prompt `"a dog"`, negative prompt
`"blurry"` and options `{steps: 20}`. -/
theorem c7_amended_negative_prompt_split :
    (∀ (t : String) (i : Nat) (li : String),
       (pySplitlines t).findIdx? (fun l => pyStartsWith (pyStrip l) "Negative prompt:") = some i →
       0 < i →
       ((pySplitlines t).drop i).headD "" = li →
       webuiSplit (pySplitlines t) =
         ⟨pyStrip (joinNL ((pySplitlines t).take i)),
          pyStrip (pyDropChars "Negative prompt:".length li),
          (pySplitlines t).drop (i + 1)⟩) ∧
    (∀ (t : String),
       (pySplitlines t).findIdx? (fun l => pyStartsWith (pyStrip l) "Negative prompt:") = some 0 →
       webuiSplit (pySplitlines t) = ⟨pyStrip (joinNL (pySplitlines t)), "", []⟩) ∧
    parse_webui_exif "a dog\nNegative prompt: blurry\nSteps: 20" =
      [("prompt", .pystr "a dog"), ("uc", .pystr "blurry"),
       ("negative_prompt", .pystr "blurry"), ("steps", .pyint 20)] ∧
    _get_naidict_from_exifdict
        (.pydict (parse_webui_exif "a dog\nNegative prompt: blurry\nSteps: 20")) =
      some ⟨"a dog", "blurry", [("steps", .pyint 20)], []⟩ := by
  refine ⟨?_, ?_, rfl, rfl⟩
  · intro t i li h1 h2 h3
    unfold webuiSplit
    rw [h1]
    simp only [if_pos h2, ← h3]
  · intro t h1
    unfold webuiSplit
    rw [h1]
    simp

/-- Witness for C7 amended at the claim's own example (`i = 1`). -/
theorem c7_amended_witness :
    webuiSplit (pySplitlines "a dog\nNegative prompt: blurry\nSteps: 20") =
      ⟨pyStrip (joinNL ((pySplitlines "a dog\nNegative prompt: blurry\nSteps: 20").take 1)),
       pyStrip (pyDropChars "Negative prompt:".length "Negative prompt: blurry"),
       (pySplitlines "a dog\nNegative prompt: blurry\nSteps: 20").drop 2⟩ :=
  c7_amended_negative_prompt_split.1 "a dog\nNegative prompt: blurry\nSteps: 20" 1
    "Negative prompt: blurry" (by decide) (by decide) (by decide)

/-! ## Claim theorems: option-key normalization (C8) -/

/-- `Char.ofNat` on a valid code point round-trips through `toNat`. -/
theorem charToNat_ofNat_valid {n : Nat} (h : n.isValidChar) : (Char.ofNat n).toNat = n := by
  rw [Char.ofNat, dif_pos h]
  simp [Char.ofNatAux, Char.toNat, UInt32.toNat, BitVec.toNat_ofNatLt]

/-- Lowercasing a character twice equals lowercasing it once. -/
theorem pyLowerChar_idem (c : Char) : pyLowerChar (pyLowerChar c) = pyLowerChar c := by
  unfold pyLowerChar
  by_cases h : c.toNat ≥ 65 ∧ c.toNat ≤ 90
  · rw [if_pos h]
    have hv : (c.toNat + 32).isValidChar := Or.inl (by omega)
    have ht : (Char.ofNat (c.toNat + 32)).toNat = c.toNat + 32 := charToNat_ofNat_valid hv
    rw [if_neg]
    rw [ht]
    omega
  · rw [if_neg h, if_neg h]

/-- `pyLower` is idempotent. -/
theorem pyLower_idem (s : String) : pyLower (pyLower s) = pyLower s := by
  unfold pyLower
  simp only [List.map_map]
  congr 1
  exact List.map_congr_left (fun c _ => pyLowerChar_idem c)

/-- A key present after `dictSet` is the inserted key or was present before. -/
theorem mem_dictKeys_dictSet {d : List (String × PyVal)} {k k0 : String} {v : PyVal}
    (h : k ∈ dictKeys (dictSet d k0 v)) : k = k0 ∨ k ∈ dictKeys d := by
  unfold dictSet at h
  split at h
  · right
    have he : dictKeys (d.map fun kv => if kv.1 == k0 then (kv.1, v) else kv) = dictKeys d := by
      unfold dictKeys
      rw [List.map_map]
      exact List.map_congr_left (fun kv _ => by simp only [Function.comp]; split <;> rfl)
    rwa [he] at h
  · unfold dictKeys at h ⊢
    rw [List.map_append] at h
    rcases List.mem_append.1 h with h | h
    · right; exact h
    · left; simpa using h

/-- A successful association-list lookup pinpoints a member pair. -/
theorem lookup_eq_some_mem {l : List (String × String)} {k v : String}
    (h : l.lookup k = some v) : (k, v) ∈ l := by
  induction l with
  | nil => simp [List.lookup] at h
  | cons hd tl ih =>
    rw [List.lookup] at h
    split at h
    · next heq =>
      obtain rfl : v = hd.2 := by cases h; rfl
      have : k = hd.1 := by simpa using heq
      subst this
      exact List.mem_cons_self _ _
    · exact List.mem_cons_of_mem _ (ih h)

/-- Every value of the synonym mapping is a canonical key. -/
theorem mapping_value_canonical {k v : String}
    (h : WEBUI_OPTION_MAPPING.lookup k = some v) : v ∈ canonicalOptionKeys := by
  have hall : ∀ p ∈ WEBUI_OPTION_MAPPING, p.2 ∈ canonicalOptionKeys := by decide
  exact hall _ (lookup_eq_some_mem h)

/-- A whitelist key that is not a synonym is canonical. -/
theorem target_nonmapped_canonical {k : String}
    (hk : k ∈ TARGETKEY_NAIDICT_OPTION)
    (hn : WEBUI_OPTION_MAPPING.lookup k = none) : k ∈ canonicalOptionKeys := by
  have hall : ∀ x ∈ TARGETKEY_NAIDICT_OPTION,
      WEBUI_OPTION_MAPPING.lookup x = none → x ∈ canonicalOptionKeys := by decide
  exact hall k hk hn

/-- `List.contains` to membership for the lowered whitelist. -/
theorem contains_lower_target {x : String}
    (h : (TARGETKEY_NAIDICT_OPTION.map pyLower).contains x = true) :
    x ∈ TARGETKEY_NAIDICT_OPTION.map pyLower := by
  simpa using h

/-- The whitelist is already lowercase. -/
theorem map_pyLower_target :
    TARGETKEY_NAIDICT_OPTION.map pyLower = TARGETKEY_NAIDICT_OPTION := by
  decide

/-- One option segment can only insert a canonical key into `options`:
a synonym is remapped to its canonical name, and a non-synonym passes the
whitelist guard only as one of the non-synonym (canonical) entries. -/
theorem webuiHandlePart_keys_canonical
    (acc : List (String × PyVal) × List (String × PyVal)) (part : String)
    (hinv : ∀ k ∈ dictKeys acc.1, k ∈ canonicalOptionKeys) :
    ∀ k ∈ dictKeys (webuiHandlePart acc part).1, k ∈ canonicalOptionKeys := by
  intro k hk
  unfold webuiHandlePart at hk
  by_cases h1 : strContains (pyStrip part) ":" = true
  · rw [if_pos h1] at hk
    rcases hsp : pySplitFirst ':' (pyStrip part) with ⟨k0, v0⟩
    simp only [hsp] at hk
    set key0 := pyLower (pyStrip k0) with hkey0
    rcases hmap : WEBUI_OPTION_MAPPING.lookup key0 with _ | nk
    · simp only [hmap] at hk
      by_cases h2 : (TARGETKEY_NAIDICT_OPTION.map pyLower).contains (pyLower key0) = true
      · rw [if_pos h2] at hk
        rcases mem_dictKeys_dictSet hk with rfl | hk2
        · have hmem : pyLower key0 ∈ TARGETKEY_NAIDICT_OPTION := by
            rw [← map_pyLower_target]; exact contains_lower_target h2
          have hid : pyLower key0 = key0 := by
            rw [hkey0]; exact pyLower_idem _
          rw [hid] at hmem
          exact target_nonmapped_canonical hmem hmap
        · exact hinv _ hk2
      · rw [if_neg h2] at hk
        exact hinv k hk
    · simp only [hmap] at hk
      by_cases h2 : (TARGETKEY_NAIDICT_OPTION.map pyLower).contains (pyLower nk) = true
      · rw [if_pos h2] at hk
        rcases mem_dictKeys_dictSet hk with rfl | hk2
        · exact mapping_value_canonical hmap
        · exact hinv _ hk2
      · rw [if_neg h2] at hk
        exact hinv k hk
  · rw [if_neg h1] at hk
    by_cases h2 : pyStrip part ≠ ""
    · rw [if_pos h2] at hk
      exact hinv k hk
    · rw [if_neg h2] at hk
      exact hinv k hk

/-- The whole option-parsing loop keeps `options` keys canonical. -/
theorem webuiParseOptions_keys_canonical (option_lines : List String) :
    ∀ k ∈ dictKeys (webuiParseOptions option_lines).1, k ∈ canonicalOptionKeys := by
  unfold webuiParseOptions
  have inner : ∀ (ps : List String) (acc : List (String × PyVal) × List (String × PyVal)),
      (∀ k ∈ dictKeys acc.1, k ∈ canonicalOptionKeys) →
      ∀ k ∈ dictKeys (ps.foldl webuiHandlePart acc).1, k ∈ canonicalOptionKeys := by
    intro ps
    induction ps with
    | nil => exact fun acc h => h
    | cons p pt ih =>
      intro acc h
      simp only [List.foldl_cons]
      exact ih _ (webuiHandlePart_keys_canonical _ _ h)
  have outer : ∀ (ls : List String) (acc : List (String × PyVal) × List (String × PyVal)),
      (∀ k ∈ dictKeys acc.1, k ∈ canonicalOptionKeys) →
      ∀ k ∈ dictKeys ((ls.foldl
        (fun acc line => (pySplitChar ',' (pyStrip line)).foldl webuiHandlePart acc) acc)).1,
      k ∈ canonicalOptionKeys := by
    intro ls
    induction ls with
    | nil => exact fun acc h => h
    | cons l lt ih =>
      intro acc h
      simp only [List.foldl_cons]
      exact ih _ (inner _ acc h)
  exact outer option_lines ([], []) (by simp [dictKeys])

/-- The claim's example text, inside a parameter block with a negative
prompt line so the option line is actually parsed as options. -/
def c8text : String := "a cat\nNegative prompt: bad\nCFG scale: 7.5, Clip skip: 2"

/-- A nai-style wrapper whose nested `Comment` JSON carries the synonym
key `cfg scale`. -/
def c8wrap : String := "\x7b\"Comment\": \"\x7b\\\"cfg scale\\\": 7\x7d\"\x7d"

/-- C8 amended: every key the parameter-block parser puts into `options`
is canonical (synonyms folded), and the claim's example normalizes to
`{scale: 7.5, clip_skip: 2}` with the stated value coercion.  (The
nested-JSON dialect parser does NOT fold synonyms — see the
counterexample.) -/
theorem c8_amended_canonical_option_keys :
    (∀ (option_lines : List String) (k : String),
       k ∈ dictKeys (webuiParseOptions option_lines).1 → k ∈ canonicalOptionKeys) ∧
    _get_naidict_from_exifdict (.pydict (parse_webui_exif c8text)) =
      some ⟨"a cat", "bad", [("scale", .pyfloat "7.5"), ("clip_skip", .pyint 2)], []⟩ :=
  ⟨fun ls k hk => webuiParseOptions_keys_canonical ls k hk, rfl⟩

/-- Witness for C8 amended at the claim's example line. -/
theorem c8_amended_witness :
    ("scale" ∈ dictKeys (webuiParseOptions ["CFG scale: 7.5, Clip skip: 2"]).1 →
      "scale" ∈ canonicalOptionKeys) ∧
    "scale" ∈ dictKeys (webuiParseOptions ["CFG scale: 7.5, Clip skip: 2"]).1 ∧
    "scale" ∈ canonicalOptionKeys :=
  ⟨c8_amended_canonical_option_keys.1 ["CFG scale: 7.5, Clip skip: 2"] "scale",
   by decide, by decide⟩

/-- C8 counterexample: a record produced by the nested-`Comment` JSON
dialect from `{"cfg scale": 7}` keeps the NON-canonical synonym key
`"cfg scale"` in its options next to the folded `"scale"`, refuting the
claim that every dialect parser's record draws its option keys from the
canonical set with synonyms folded to a single name. -/
theorem c8_counterexample_nai_keeps_synonym :
    get_naidict_from_candidates (some c8wrap) none =
      (.record ⟨"", "", [("cfg scale", .pyint 7), ("scale", .pyint 7)], []⟩, 3) ∧
    "cfg scale" ∉ canonicalOptionKeys ∧
    dictKeys [(("cfg scale" : String), PyVal.pyint 7), ("scale", .pyint 7)] =
      ["cfg scale", "scale"] :=
  ⟨rfl, by decide, by decide⟩

/-! ## Concrete images for the orchestrator claims -/

/-- Plain PNG-like image with no metadata at all (1 pixel, all zero). -/
def imgEmpty : PILImage := ⟨1, 1, false, fun _ _ => (0, 0, 0, 0), some "PNG", [], false, none⟩

/-- JPEG image whose EXIF UserComment is the plain text `"my prompt"`
(not JSON, no WebUI markers, but containing the substring `prompt`). -/
def imgTyErr : PILImage :=
  ⟨1, 1, false, fun _ _ => (0, 0, 0, 0), some "JPEG", [], true, some "my prompt"⟩

/-- JPEG image whose EXIF UserComment is the plain text `"hello world"`. -/
def imgNoP : PILImage :=
  ⟨1, 1, false, fun _ _ => (0, 0, 0, 0), some "JPEG", [], true, some "hello world"⟩

/-- The claim's parameter-block text. -/
def paramsC6 : String := "a dog\nNegative prompt: blurry\nSteps: 20"

/-- PNG image whose `parameters` info entry is a WebUI parameter block. -/
def imgC6x : PILImage :=
  ⟨1, 1, false, fun _ _ => (0, 0, 0, 0), some "PNG", [("parameters", paramsC6)], false, none⟩

/-- PNG image whose `parameters` info entry is plain text with no markers,
no JSON shape and no `prompt` substring. -/
def imgC6w : PILImage :=
  ⟨1, 1, false, fun _ _ => (0, 0, 0, 0), some "PNG", [("parameters", "hello world")], false, none⟩

/-- A nai-style wrapper: JSON with a nested `Comment` JSON string holding
`{"prompt": "a cat"}`, and a `parameters` field besides. -/
def wrapper5 : String :=
  "\x7b\"Comment\": \"\x7b\\\"prompt\\\": \\\"a cat\\\"\x7d\", \"parameters\": \"x\"\x7d"

/-- The nested JSON carried by `wrapper5`. -/
def inner5 : String := "\x7b\"prompt\": \"a cat\"\x7d"

/-- JPEG whose EXIF UserComment is `wrapper5`. -/
def imgC5w : PILImage :=
  ⟨1, 1, false, fun _ _ => (0, 0, 0, 0), some "JPEG", [], true, some wrapper5⟩

/-- A wrapper whose nested `Comment` JSON has a NUMERIC prompt (so record
extraction fails) next to a WebUI `parameters` block. -/
def wrapper5x : String :=
  "\x7b\"Comment\": \"\x7b\\\"prompt\\\": 5\x7d\", \"parameters\": \"a dog\\nNegative prompt: bad\"\x7d"

/-- JPEG whose EXIF UserComment is `wrapper5x`. -/
def imgC5x : PILImage :=
  ⟨1, 1, false, fun _ _ => (0, 0, 0, 0), some "JPEG", [], true, some wrapper5x⟩

/-! ## Claim theorems: orchestrator -/

/-- An image carrying no metadata the extractor could find: empty info
map, no EXIF blob, no stealth payload. -/
def NoEmbeddedMetadata (img : PILImage) : Prop :=
  img.textInfo = [] ∧ img.exifPresent = false ∧ read_info_from_image_stealth img = none

/-- A successful info-map lookup implies a non-empty map. -/
theorem lookupStr_ne_nil {kvs : List (String × String)} {k v : String}
    (h : lookupStr kvs k = some v) : kvs.isEmpty = false := by
  cases kvs with
  | nil => simp [lookupStr] at h
  | cons hd tl => rfl

/-- C9: for every image with no embedded metadata of any kind the entry
point returns the empty string, and whenever the body raises (the one
reachable exception being the string-index TypeError), the outer handler
absorbs it into the empty string — nothing propagates to the caller. -/
theorem c9_no_metadata_empty_never_raises :
    (∀ img : PILImage, NoEmbeddedMetadata img → read_info_from_image img = .pystr "") ∧
    (∀ (img : PILImage) (e : PyErr), read_info_from_image_body img = .error e →
       read_info_from_image img = .pystr "") := by
  constructor
  · rintro img ⟨h1, h2, h3⟩
    have hio : _get_infostr_from_img img = (none, none) := by
      unfold _get_infostr_from_img
      rw [h3]
      simp [h1, h2]
    have hnd : get_naidict_from_img img = (.noResult, 0) := by
      unfold get_naidict_from_img
      rw [hio]
      rfl
    have hfb : read_info_from_image_fallback img = .ok (.pystr "") := by
      unfold read_info_from_image_fallback
      rw [h1, h2, h3]
      simp [lookupStr, _extract_comfyui_prompt]
    unfold read_info_from_image read_info_from_image_body
    rw [hnd, hfb]
  · intro img e h
    unfold read_info_from_image
    rw [h]

/-- Witness for C9: the empty image yields `""`, and `imgTyErr` (whose
body throws the TypeError) also yields `""`. -/
theorem c9_witness :
    NoEmbeddedMetadata imgEmpty ∧ read_info_from_image imgEmpty = .pystr "" ∧
    read_info_from_image_body imgTyErr = .error .typeError ∧
    read_info_from_image imgTyErr = .pystr "" := by
  have hm : NoEmbeddedMetadata imgEmpty := ⟨rfl, rfl, rfl⟩
  have hb : read_info_from_image_body imgTyErr = .error .typeError := rfl
  exact ⟨hm, c9_no_metadata_empty_never_raises.1 imgEmpty hm, hb,
    c9_no_metadata_empty_never_raises.2 imgTyErr .typeError hb⟩

/-- C10 counterexample: the claim says the raw candidate string is
returned as the prompt exactly when it contains the substring `prompt`.
On `imgTyErr` the candidate is `"my prompt"` — it does contain `prompt` —
but the string-index `nai_dict["prompt"]` raises TypeError and the outer
handler returns `""`, not the raw string. -/
theorem c10_counterexample_prompt_substring_yields_empty :
    get_naidict_from_img imgTyErr = (.rawStr "my prompt", 1) ∧
    strContains "my prompt" "prompt" = true ∧
    read_info_from_image imgTyErr = .pystr "" ∧
    "" ≠ "my prompt" := ⟨rfl, by decide, rfl, by decide⟩

/-- C10 amended: when `get_naidict_from_img` falls back to a raw candidate
string, the membership test `"prompt" in nai_dict` is a substring check;
a hit makes `nai_dict["prompt"]` raise TypeError, which the outer handler
turns into the EMPTY string (the raw candidate is never returned at this
step); a miss discards the candidate here and runs the later extraction
methods. -/
theorem c10_amended_substring_raises (img : PILImage) (s : String) (k : Nat)
    (h : get_naidict_from_img img = (.rawStr s, k)) (hs : s ≠ "") :
    (strContains s "prompt" = true →
       read_info_from_image_body img = .error .typeError ∧
       read_info_from_image img = .pystr "") ∧
    (strContains s "prompt" = false →
       read_info_from_image_body img = read_info_from_image_fallback img) := by
  constructor
  · intro hc
    have hb : read_info_from_image_body img = .error .typeError := by
      unfold read_info_from_image_body
      rw [h]
      simp [hs, hc]
    refine ⟨hb, ?_⟩
    unfold read_info_from_image
    rw [hb]
  · intro hc
    unfold read_info_from_image_body
    rw [h]
    simp [hs, hc]

/-- Witness for C10 amended: `imgTyErr` exercises the substring branch
(result `""`), `imgNoP` the miss branch (the later EXIF method then
returns its comment verbatim). -/
theorem c10_amended_witness :
    get_naidict_from_img imgTyErr = (.rawStr "my prompt", 1) ∧
    read_info_from_image imgTyErr = .pystr "" ∧
    get_naidict_from_img imgNoP = (.rawStr "hello world", 1) ∧
    strContains "hello world" "prompt" = false ∧
    read_info_from_image_body imgNoP = read_info_from_image_fallback imgNoP ∧
    read_info_from_image imgNoP = .pystr "hello world" := by
  refine ⟨rfl, ?_, rfl, by decide, ?_, rfl⟩
  · exact ((c10_amended_substring_raises imgTyErr "my prompt" 1 rfl (by decide)).1
      (by decide)).2
  · exact (c10_amended_substring_raises imgNoP "hello world" 1 rfl (by decide)).2
      (by decide)

/-- C6 counterexample: the claim says that when the Tool-A dialect does
not match, a non-empty `parameters` info string is returned VERBATIM with
no dialect parsing.  On `imgC6x` the parameters block contains WebUI
markers, so `_get_exifdict_from_infostr` routes it through
`parse_webui_exif` and the entry point returns the parsed prompt
`"a dog"`, not the verbatim string. -/
theorem c6_counterexample_markers_are_parsed :
    lookupStr imgC6x.textInfo "parameters" = some paramsC6 ∧
    naiBranch (some paramsC6) = none ∧
    read_info_from_image imgC6x = .pystr "a dog" ∧
    "a dog" ≠ paramsC6 := ⟨rfl, rfl, rfl, by decide⟩

/-- A PNG image whose `parameters` info entry is `"[1, 2]"`: it parses as
JSON, yet no dialect parser extracts a record from it. -/
def imgC6j : PILImage :=
  ⟨1, 1, false, fun _ _ => (0, 0, 0, 0), some "PNG", [("parameters", "[1, 2]")], false, none⟩

/-- C6 amended: when the Tool-A dialect does not match a non-empty
`parameters` string, the orchestrator returns it verbatim whenever no
dialect parser extracts a usable record from it — the candidate's
exifdict is absent, falsy, or fails record normalization — and the string
does not contain the substring `prompt`.  This includes strings that DO
parse as JSON (such as `"[1, 2]"` or `"\x7b\x7d"`): JSON parsing alone does
not prevent the verbatim return.  Dialect parsing IS attempted on the
string first, so a marker-bearing parameter block is parsed instead
(see the counterexample) and a `prompt`-containing string yields `""`
through the string-index TypeError (see C10). -/
theorem c6_amended_verbatim_parameters (img : PILImage) (p : String)
    (hfmt : img.format = some "PNG")
    (hc : lookupStr img.textInfo "Comment" = none)
    (hp : lookupStr img.textInfo "parameters" = some p)
    (hne : p ≠ "")
    (hnai : is_nai_exif (some p) = false)
    (hrec : ∀ v, _get_exifdict_from_infostr (some p) = some v →
        pyTruthy v = true → _get_naidict_from_exifdict v = none)
    (hsub : strContains p "prompt" = false)
    (hst : read_info_from_image_stealth img = none) :
    read_info_from_image img = .pystr p := by
  have hio : _get_infostr_from_img img = (some p, none) := by
    unfold _get_infostr_from_img
    rw [hst, hfmt, hc, hp]
    simp [lookupStr_ne_nil hp]
  have hnb : naiBranch (some p) = none := by
    unfold naiBranch
    rw [hnai]
    rfl
  have hnb0 : naiBranch none = none := rfl
  have hed0 : _get_exifdict_from_infostr none = none := rfl
  have hnd : get_naidict_from_img img = (.rawStr p, 1) ∨
      get_naidict_from_img img = (.rawStr p, 2) := by
    unfold get_naidict_from_img
    rw [hio]
    rcases hed : _get_exifdict_from_infostr (some p) with _ | v
    · left
      simp [get_naidict_from_candidates, optTruthy, hne, hnb, hnb0, hed, hed0,
        edTruthy, pyOrStrD]
    · by_cases htr : pyTruthy v = true
      · right
        have hr := hrec v hed htr
        simp [get_naidict_from_candidates, optTruthy, hne, hnb, hnb0, hed, hed0,
          edTruthy, htr, hr, pyOrStrD]
      · left
        simp [get_naidict_from_candidates, optTruthy, hne, hnb, hnb0, hed, hed0,
          edTruthy, htr, pyOrStrD]
  have hfb : read_info_from_image_fallback img = .ok (.pystr p) := by
    unfold read_info_from_image_fallback
    rw [hp]
    simp [hne]
  rcases hnd with hnd | hnd <;>
  · have hb : read_info_from_image_body img = read_info_from_image_fallback img := by
      unfold read_info_from_image_body
      rw [hnd]
      simp [hne, hsub]
    unfold read_info_from_image
    rw [hb, hfb]

/-- Witness for C6 amended: `imgC6w` (parameters `"hello world"`, not
JSON) and `imgC6j` (parameters `"[1, 2]"`, valid JSON that no dialect
turns into a record) are both returned verbatim. -/
theorem c6_amended_witness :
    read_info_from_image imgC6w = .pystr "hello world" ∧
    jsonLoads "[1, 2]" = some (.pylist [.pyint 1, .pyint 2]) ∧
    read_info_from_image imgC6j = .pystr "[1, 2]" := by
  refine ⟨?_, rfl, ?_⟩
  · exact c6_amended_verbatim_parameters imgC6w "hello world" rfl rfl rfl (by decide) rfl
      (fun v hv htr => Option.noConfusion hv) (by decide) rfl
  · exact c6_amended_verbatim_parameters imgC6j "[1, 2]" rfl rfl rfl (by decide) rfl
      (fun v hv htr => by obtain rfl := Option.some.inj hv; rfl) (by decide) rfl

/-- C5 amended: when a candidate is JSON whose non-null `Comment` holds a
nested JSON object AND the record extraction from that object succeeds,
the nested record wins (code 3) regardless of any `parameters` field, and
its prompt is the trimmed nested `prompt` string.  (When record extraction
fails the orchestrator falls through to the other dialects — see the
counterexample.) -/
theorem c5_amended_nested_comment_wins (img : PILImage) (s : String) (pg : Option String)
    (kvs ikvs : List (String × PyVal)) (c p : String) (nd : NaiDict)
    (hio : _get_infostr_from_img img = (some s, pg))
    (hjs : jsonLoads s = some (.pydict kvs))
    (hcm : dictGet kvs "Comment" = some (.pystr c))
    (hic : jsonLoads c = some (.pydict ikvs))
    (hnd : _get_naidict_from_exifdict (.pydict ikvs) = some nd)
    (hip : dictGet ikvs "prompt" = some (.pystr p)) :
    get_naidict_from_img img = (.record nd, 3) ∧ nd.prompt = pyStrip p := by
  have hs : s ≠ "" := by
    intro hx
    rw [hx] at hjs
    have h0 : jsonLoads "" = none := rfl
    rw [h0] at hjs
    exact Option.noConfusion hjs
  constructor
  · unfold get_naidict_from_img
    rw [hio]
    simp [get_naidict_from_candidates, optTruthy, hs, naiBranch, is_nai_exif,
      hjs, hcm, hic, hnd, pyIsNone]
  · simp only [_get_naidict_from_exifdict, hip] at hnd
    by_cases hp0 : p = ""
    · subst hp0
      simp [pyOrVal, pyTruthy, pyStripVal] at hnd
      rcases hx : naiNegativeField ikvs with _ | np
      · rw [hx] at hnd; exact Option.noConfusion hnd
      · rw [hx] at hnd
        cases hnd
        rfl
    · simp [pyOrVal, pyTruthy, hp0, pyStripVal] at hnd
      rcases hx : naiNegativeField ikvs with _ | np
      · rw [hx] at hnd; exact Option.noConfusion hnd
      · rw [hx] at hnd
        cases hnd
        rfl

/-- Witness for C5 amended at the claim's own scenario (`wrapper5` with
both a nested `Comment` record and a `parameters` field): the nested
prompt `"a cat"` wins. -/
theorem c5_amended_witness :
    get_naidict_from_img imgC5w = (.record ⟨"a cat", "", [], []⟩, 3) ∧
    NaiDict.prompt ⟨"a cat", "", [], []⟩ = pyStrip "a cat" :=
  c5_amended_nested_comment_wins imgC5w wrapper5 none
    [("Comment", .pystr inner5), ("parameters", .pystr "x")]
    [("prompt", .pystr "a cat")] inner5 "a cat" ⟨"a cat", "", [], []⟩
    rfl rfl rfl rfl rfl rfl

/-- C5 counterexample: a candidate that is JSON with a non-null `Comment`
holding a nested JSON string, where the nested record extraction fails
(`"prompt": 5` is not a string): the nested dialect does NOT win — the
orchestrator falls through and the `parameters` dialect supplies the
prompt `"a dog"`. -/
theorem c5_counterexample_failed_record_falls_through :
    jsonLoads wrapper5x =
      some (.pydict [("Comment", .pystr "\x7b\"prompt\": 5\x7d"),
                     ("parameters", .pystr "a dog\nNegative prompt: bad")]) ∧
    jsonLoads "\x7b\"prompt\": 5\x7d" = some (.pydict [("prompt", .pyint 5)]) ∧
    naiBranch (some wrapper5x) = none ∧
    get_naidict_from_img imgC5x = (.record ⟨"a dog", "bad", [], []⟩, 3) ∧
    "a dog" ≠ "5" := ⟨rfl, rfl, rfl, rfl, by decide⟩
